import Mathlib

/-!
Shallow embedding of the Darim server Authentication Service
(src/server/src/services/auth.rs) together with spec-modelled
definitions of its external collaborators (user store, user-key store,
token stores, email sender, session context), which live outside the
provided sources.  All machine behaviour of the service itself is
translated directly from the Rust source; collaborator behaviour is
modelled from the specification and marked as such.
-/

namespace Darim

/-- A user record, as in the data model: id, unique email, name,
stored password hash and an optional avatar url. -/
structure User where
  id : Nat
  email : String
  name : String
  password_hash : String
  avatar_url : Option String
  deriving DecidableEq, Repr

/-- A user key record: owning user id and public key. -/
structure UserKey where
  user_id : Nat
  public_key : String
  deriving DecidableEq, Repr

/-- The session payload assembled by login and session refresh. -/
structure UserSession where
  user_id : Nat
  user_email : String
  user_name : String
  user_public_key : String
  user_avatar_url : Option String
  deriving DecidableEq, Repr

/-- Modelled from the spec: the service error taxonomy of
models/error.rs (not under the provided sources): InvalidArgument,
InvalidFormat, Unauthorized, NotFound carrying the key of the failed
lookup, and a generic store error. -/
inductive ServiceError where
  | invalidArgument : ServiceError
  | invalidFormat : ServiceError
  | unauthorized : ServiceError
  | notFound (key : String) : ServiceError
  | storeError (msg : String) : ServiceError
  deriving DecidableEq, Repr

/-- Modelled from the spec: get_service_error logs the error and hands
it back unchanged; in a pure embedding it is the identity. -/
def get_service_error (e : ServiceError) : ServiceError := e

/-- The pending-registration token assembled by set_sign_up_token. -/
structure SignUpToken where
  pin : String
  name : String
  email : String
  password : String
  avatar_url : Option String
  deriving DecidableEq, Repr

/-- The password-reset token assembled by set_password_token. -/
structure PasswordToken where
  id : String
  password : String
  deriving DecidableEq, Repr

/-- Handle for the sign-up token store; its behaviour lives in the
environment, so the handle carries no data. -/
structure SignUpTokenRepository where
  deriving DecidableEq, Repr

/-- SignUpTokenRepository::new(). -/
def SignUpTokenRepository.new : SignUpTokenRepository := {}

/-- Handle for the password-reset token store; per the source it is
constructed scoped to one user id, which the handle records. -/
structure PasswordTokenRepository where
  user_id : Nat
  deriving DecidableEq, Repr

/-- PasswordTokenRepository::new(user_id). -/
def PasswordTokenRepository.new (user_id : Nat) : PasswordTokenRepository :=
  { user_id := user_id }

/-- Handle for the user-key store. -/
structure UserKeyRepository where
  deriving DecidableEq, Repr

/-- UserKeyRepository::new(). -/
def UserKeyRepository.new : UserKeyRepository := {}

/-- Handle for the user store. -/
structure UserRepository where
  deriving DecidableEq, Repr

/-- UserRepository::new(). -/
def UserRepository.new : UserRepository := {}

/-- Rust str::trim, modelled structurally on the character list:
drops leading and trailing whitespace.  (The core String.trim uses
well-founded recursion and is extensionally the same on the inputs of
interest.) -/
def str_trim (s : String) : String :=
  String.mk
    (((s.data.dropWhile Char.isWhitespace).reverse.dropWhile
      Char.isWhitespace).reverse)

/-- Builds a string of n characters drawn from a character stream;
this embeds thread_rng().sample_iter(&Alphanumeric).take(n).collect(). -/
def sample_alphanumeric (f : Nat → Char) (n : Nat) : String :=
  String.mk ((List.range n).map f)

/-- Modelled from the spec: the external collaborators of the Auth
Service (user store, user-key store, token stores, password utilities,
serializer, email sender and the random alphanumeric source), none of
which are under the provided sources.  Absent lookups yield NotFound
per the spec, so lookups are modelled as Option-valued; token-store
saves may fail with any store error; the serializer may fail. -/
structure Env where
  find_password_by_email : String → Option String
  find_by_email : String → Option User
  find_by_id : Nat → Option User
  find_by_user_id : Nat → Option UserKey
  check_password : String → String → Bool
  get_hashed_password : String → String
  serialize_sign_up_token : SignUpToken → Option String
  serialize_password_token : PasswordToken → Option String
  sign_up_save : String → Except ServiceError Bool
  password_save : Nat → String → Except ServiceError Bool
  send_email : String → String → String → Except String Bool
  rand1 : Nat → Char
  rand2 : Nat → Char

/-- One observable call made to an external store or to the email
sender, recorded so that absence of side effects can be stated. -/
inductive Effect where
  | findPasswordByEmail (email : String) : Effect
  | findByEmail (email : String) : Effect
  | findById (id : Nat) : Effect
  | findKeyByUserId (user_id : Nat) : Effect
  | saveSignUpToken (token : String) : Effect
  | savePasswordToken (scope_user_id : Nat) (token : String) : Effect
  | sendEmail (dest subject body : String) : Effect
  deriving DecidableEq, Repr

/-- The 8-character pin drawn by set_sign_up_token. -/
def generated_pin (env : Env) : String :=
  sample_alphanumeric env.rand1 8

/-- The password token drawn by set_password_token: a 32-character id
and a 512-character temporary password. -/
def generated_password_token (env : Env) : PasswordToken :=
  { id := sample_alphanumeric env.rand1 32
    password := sample_alphanumeric env.rand2 512 }

/-- The AuthService struct: four lazily populated repository fields. -/
structure AuthService where
  sign_up_token_repository : Option SignUpTokenRepository
  password_token_repository : Option PasswordTokenRepository
  user_key_repository : Option UserKeyRepository
  user_repository : Option UserRepository
  deriving DecidableEq, Repr

/-- AuthService::new(): every repository field starts out empty. -/
def AuthService.new : AuthService :=
  { sign_up_token_repository := none
    password_token_repository := none
    user_key_repository := none
    user_repository := none }

/-- The some_if_true! macro: Some(value) when the condition holds. -/
def some_if_true {α : Type} (cond : Bool) (value : α) : Option α :=
  if cond then some value else none

/-- The sign_up_token_repository accessor.  A Some argument replaces
the field; otherwise the stored repository is unwrapped.  The unwrap
of an empty field is the None result, standing for a panic. -/
def AuthService.signUpTokenRepository (s : AuthService)
    (new_repository : Option SignUpTokenRepository) :
    Option (SignUpTokenRepository × AuthService) :=
  match new_repository with
  | some r => some (r, { s with sign_up_token_repository := some r })
  | none =>
    match s.sign_up_token_repository with
    | some r => some (r, s)
    | none => none

/-- The password_token_repository accessor, shaped like the one for
sign-up tokens. -/
def AuthService.passwordTokenRepository (s : AuthService)
    (new_repository : Option PasswordTokenRepository) :
    Option (PasswordTokenRepository × AuthService) :=
  match new_repository with
  | some r => some (r, { s with password_token_repository := some r })
  | none =>
    match s.password_token_repository with
    | some r => some (r, s)
    | none => none

/-- The user_key_repository accessor. -/
def AuthService.userKeyRepository (s : AuthService)
    (new_repository : Option UserKeyRepository) :
    Option (UserKeyRepository × AuthService) :=
  match new_repository with
  | some r => some (r, { s with user_key_repository := some r })
  | none =>
    match s.user_key_repository with
    | some r => some (r, s)
    | none => none

/-- The user_repository accessor. -/
def AuthService.userRepository (s : AuthService)
    (new_repository : Option UserRepository) :
    Option (UserRepository × AuthService) :=
  match new_repository with
  | some r => some (r, { s with user_repository := some r })
  | none =>
    match s.user_repository with
    | some r => some (r, s)
    | none => none

/-- The outcome of one service operation: None stands for a panic;
otherwise the result or error, the service state after the call, and
the trace of external calls made. -/
abbrev OpResult (α : Type) : Type :=
  Option (Except ServiceError α × AuthService × List Effect)

/-- AuthService::login.  Finds the stored password hash by email,
checks the supplied password against it, and on a match loads the user
and the public key of its user key to assemble a UserSession. -/
def AuthService.login (s : AuthService) (env : Env)
    (email password : String) : OpResult UserSession :=
  match s.userRepository
      (some_if_true s.user_repository.isNone UserRepository.new) with
  | none => none
  | some (_, s1) =>
    match env.find_password_by_email email with
    | none =>
      some (Except.error (ServiceError.notFound email), s1,
        [Effect.findPasswordByEmail email])
    | some found_password =>
      if env.check_password password found_password then
        match s1.userRepository none with
        | none => none
        | some (_, s2) =>
          match env.find_by_email email with
          | none =>
            some (Except.error (ServiceError.notFound email), s2,
              [Effect.findPasswordByEmail email, Effect.findByEmail email])
          | some user =>
            match s2.userKeyRepository
                (some_if_true s2.user_key_repository.isNone
                  UserKeyRepository.new) with
            | none => none
            | some (_, s3) =>
              match env.find_by_user_id user.id with
              | none =>
                some (Except.error (ServiceError.notFound (toString user.id)),
                  s3,
                  [Effect.findPasswordByEmail email, Effect.findByEmail email,
                    Effect.findKeyByUserId user.id])
              | some user_key =>
                some (Except.ok
                  { user_id := user.id
                    user_email := user.email
                    user_name := user.name
                    user_public_key := user_key.public_key
                    user_avatar_url := user.avatar_url }, s3,
                  [Effect.findPasswordByEmail email, Effect.findByEmail email,
                    Effect.findKeyByUserId user.id])
      else
        some (Except.error ServiceError.unauthorized, s1,
          [Effect.findPasswordByEmail email])

/-- AuthService::refresh_user_session.  The session context is
modelled from the spec as the optional prior UserSession; set_session
followed by get_session yields exactly the written session, so the
consistency-check branch of the source cannot fire in the model. -/
def AuthService.refresh_user_session (s : AuthService) (env : Env)
    (session : Option UserSession) : OpResult UserSession :=
  match session with
  | none =>
    some (Except.error (get_service_error ServiceError.unauthorized), s, [])
  | some user_session =>
    match s.userRepository
        (some_if_true s.user_repository.isNone UserRepository.new) with
    | none => none
    | some (_, s1) =>
      match env.find_by_id user_session.user_id with
      | none =>
        some (Except.error
          (ServiceError.notFound (toString user_session.user_id)), s1,
          [Effect.findById user_session.user_id])
      | some user =>
        some (Except.ok
          { user_id := user_session.user_id
            user_email := user_session.user_email
            user_name := user.name
            user_public_key := user_session.user_public_key
            user_avatar_url := user.avatar_url }, s1,
          [Effect.findById user_session.user_id])

/-- The notification body sent by set_sign_up_token. -/
def sign_up_email_body (name pin : String) : String :=
  "Hello " ++ name ++ " :)\n\nYou’ve joined Darim.\n\nPlease visit the link to finish the sign up processs:\n" ++ pin

/-- AuthService::set_sign_up_token.  Validates the arguments, draws an
8-character pin, hashes the password, serializes the token, saves it,
and then fires a best-effort notification email whose outcome is
discarded. -/
def AuthService.set_sign_up_token (s : AuthService) (env : Env)
    (name email password : String) (avatar_url : Option String) :
    OpResult Bool :=
  if (str_trim name).isEmpty || (str_trim email).isEmpty ||
      (str_trim password).isEmpty then
    some (Except.error (get_service_error ServiceError.invalidArgument), s, [])
  else
    let pin : String := generated_pin env
    let hashed_password := env.get_hashed_password password
    let token : SignUpToken :=
      { pin := pin
        name := name
        email := email
        password := hashed_password
        avatar_url := avatar_url }
    match env.serialize_sign_up_token token with
    | none =>
      some (Except.error (get_service_error ServiceError.invalidFormat), s, [])
    | some serialized_token =>
      match s.signUpTokenRepository
          (some_if_true s.sign_up_token_repository.isNone
            SignUpTokenRepository.new) with
      | none => none
      | some (_, s1) =>
        match env.sign_up_save serialized_token with
        | Except.error e =>
          some (Except.error e, s1, [Effect.saveSignUpToken serialized_token])
        | Except.ok result =>
          let subject := "Welcome to Darim"
          let body := sign_up_email_body token.name token.pin
          let _ := env.send_email token.email subject body
          some (Except.ok result, s1,
            [Effect.saveSignUpToken serialized_token,
              Effect.sendEmail token.email subject body])

/-- The notification body sent by set_password_token. -/
def password_email_body (password id : String) : String :=
  "Hello :)\n\nPlease copy the temporary password:\n" ++ password ++ "\n\nand visit the link to reset your password:\n" ++ id

/-- AuthService::set_password_token.  Finds the user by email, draws a
32-character token id and a 512-character temporary password,
serializes the token, saves it through the password-token repository
(constructing one scoped to the user id only when none is retained),
and fires a best-effort notification email. -/
def AuthService.set_password_token (s : AuthService) (env : Env)
    (email : String) : OpResult Bool :=
  match s.userRepository
      (some_if_true s.user_repository.isNone UserRepository.new) with
  | none => none
  | some (_, s1) =>
    match env.find_by_email email with
    | none =>
      some (Except.error (ServiceError.notFound email), s1,
        [Effect.findByEmail email])
    | some user =>
      let token : PasswordToken := generated_password_token env
      match env.serialize_password_token token with
      | none =>
        some (Except.error (get_service_error ServiceError.invalidFormat), s1,
          [Effect.findByEmail email])
      | some serialized_token =>
        match s1.passwordTokenRepository
            (some_if_true s1.password_token_repository.isNone
              (PasswordTokenRepository.new user.id)) with
        | none => none
        | some (repo, s2) =>
          match env.password_save repo.user_id serialized_token with
          | Except.error e =>
            some (Except.error e, s2,
              [Effect.findByEmail email,
                Effect.savePasswordToken repo.user_id serialized_token])
          | Except.ok result =>
            let subject := "Please reset your password"
            let body := password_email_body token.password token.id
            let _ := env.send_email email subject body
            some (Except.ok result, s2,
              [Effect.findByEmail email,
                Effect.savePasswordToken repo.user_id serialized_token,
                Effect.sendEmail email subject body])

instance {ε α : Type} [DecidableEq ε] [DecidableEq α] :
    DecidableEq (Except ε α) := fun a b =>
  match a, b with
  | Except.error x, Except.error y => decidable_of_iff (x = y) (by simp)
  | Except.ok x, Except.ok y => decidable_of_iff (x = y) (by simp)
  | Except.error _, Except.ok _ => isFalse (fun h => Except.noConfusion h)
  | Except.ok _, Except.error _ => isFalse (fun h => Except.noConfusion h)

/-- One invocation of a public Auth Service operation. -/
inductive Op where
  | doLogin (email password : String) : Op
  | doRefresh (session : Option UserSession) : Op
  | doSetSignUpToken (name email password : String)
      (avatar_url : Option String) : Op
  | doSetPasswordToken (email : String) : Op

/-- Runs one public operation, keeping only the service state (or None
for a panic). -/
def runOp (env : Env) (s : AuthService) : Op → Option AuthService
  | Op.doLogin email password =>
    (s.login env email password).map (fun r => r.2.1)
  | Op.doRefresh session =>
    (s.refresh_user_session env session).map (fun r => r.2.1)
  | Op.doSetSignUpToken name email password avatar_url =>
    (s.set_sign_up_token env name email password avatar_url).map
      (fun r => r.2.1)
  | Op.doSetPasswordToken email =>
    (s.set_password_token env email).map (fun r => r.2.1)

/-- Runs a sequence of public operations, stopping at the first panic. -/
def runOps (env : Env) : List Op → AuthService → Option AuthService
  | [], s => some s
  | op :: rest, s =>
    match runOp env s op with
    | none => none
    | some s1 => runOps env rest s1

theorem userRepository_fallback (s : AuthService) (r : UserRepository) :
    s.userRepository (some_if_true s.user_repository.isNone r) =
      some (s.user_repository.getD r,
        { s with user_repository := some (s.user_repository.getD r) }) := by
  cases h : s.user_repository with
  | none => simp [AuthService.userRepository, some_if_true, h]
  | some r0 =>
    simp [AuthService.userRepository, some_if_true, h]
    rw [← h]

theorem userKeyRepository_fallback (s : AuthService) (r : UserKeyRepository) :
    s.userKeyRepository (some_if_true s.user_key_repository.isNone r) =
      some (s.user_key_repository.getD r,
        { s with user_key_repository := some (s.user_key_repository.getD r) }) := by
  cases h : s.user_key_repository with
  | none => simp [AuthService.userKeyRepository, some_if_true, h]
  | some r0 =>
    simp [AuthService.userKeyRepository, some_if_true, h]
    rw [← h]

theorem signUpTokenRepository_fallback (s : AuthService)
    (r : SignUpTokenRepository) :
    s.signUpTokenRepository (some_if_true s.sign_up_token_repository.isNone r) =
      some (s.sign_up_token_repository.getD r,
        { s with sign_up_token_repository := some (s.sign_up_token_repository.getD r) }) := by
  cases h : s.sign_up_token_repository with
  | none => simp [AuthService.signUpTokenRepository, some_if_true, h]
  | some r0 =>
    simp [AuthService.signUpTokenRepository, some_if_true, h]
    rw [← h]

theorem passwordTokenRepository_fallback (s : AuthService)
    (r : PasswordTokenRepository) :
    s.passwordTokenRepository
        (some_if_true s.password_token_repository.isNone r) =
      some (s.password_token_repository.getD r,
        { s with password_token_repository := some (s.password_token_repository.getD r) }) := by
  cases h : s.password_token_repository with
  | none => simp [AuthService.passwordTokenRepository, some_if_true, h]
  | some r0 =>
    simp [AuthService.passwordTokenRepository, some_if_true, h]
    rw [← h]

theorem userRepository_after_set (s : AuthService) (r : UserRepository) :
    ({ s with user_repository := some r } : AuthService).userRepository none =
      some (r, { s with user_repository := some r }) := rfl

/-- A concrete user used to exercise the theorems. -/
def user1 : User :=
  { id := 1, email := "a@x.com", name := "Alice",
    password_hash := "H", avatar_url := none }

/-- A second concrete user with a different id. -/
def user2 : User :=
  { id := 2, email := "b@x.com", name := "Bob",
    password_hash := "H2", avatar_url := none }

/-- The user key of user1. -/
def key1 : UserKey := { user_id := 1, public_key := "PK1" }

/-- A concrete environment: one known password hash, two users, one
user key, password check accepting exactly ("secret", "H"), total
serializers, always-succeeding stores, and a constant random stream. -/
def testEnv : Env :=
  { find_password_by_email := fun e => if e = "a@x.com" then some "H" else none
    find_by_email := fun e =>
      if e = "a@x.com" then some user1
      else if e = "b@x.com" then some user2 else none
    find_by_id := fun i => if i = 1 then some user1 else none
    find_by_user_id := fun i => if i = 1 then some key1 else none
    check_password := fun p h => p == "secret" && h == "H"
    get_hashed_password := fun p => "hash:" ++ p
    serialize_sign_up_token := fun t => some ("SU:" ++ t.pin)
    serialize_password_token := fun t => some ("PT:" ++ t.id)
    sign_up_save := fun _ => Except.ok true
    password_save := fun _ _ => Except.ok true
    send_email := fun _ _ _ => Except.ok true
    rand1 := fun _ => 'a'
    rand2 := fun _ => 'a' }

/-- C1: when the user store holds a password hash for the email and
the password check accepts the supplied password, login returns Ok
with a UserSession whose user_id, user_email, user_name and
user_avatar_url equal the fields of the User found by that email and
whose user_public_key equals the public_key of the UserKey found by
that user's id. -/
theorem C1_login_returns_matching_session (s : AuthService) (env : Env)
    (email password hash : String) (user : User) (user_key : UserKey)
    (h1 : env.find_password_by_email email = some hash)
    (h2 : env.check_password password hash = true)
    (h3 : env.find_by_email email = some user)
    (h4 : env.find_by_user_id user.id = some user_key) :
    (s.login env email password).map (fun r => r.1) =
      some (Except.ok
        { user_id := user.id
          user_email := user.email
          user_name := user.name
          user_public_key := user_key.public_key
          user_avatar_url := user.avatar_url }) := by
  simp only [AuthService.login, userRepository_fallback,
    userRepository_after_set, userKeyRepository_fallback, h1, h2, h3, h4]
  simp

theorem C1_witness :
    (AuthService.new.login testEnv "a@x.com" "secret").map (fun r => r.1) =
      some (Except.ok
        { user_id := 1
          user_email := "a@x.com"
          user_name := "Alice"
          user_public_key := "PK1"
          user_avatar_url := none }) :=
  C1_login_returns_matching_session AuthService.new testEnv
    "a@x.com" "secret" "H" user1 key1
    (by decide) (by decide) (by decide) (by decide)

/-- C2: when the user store holds a password hash for the email but
the password check rejects the supplied password, login returns
Err(Unauthorized) and no UserSession. -/
theorem C2_login_wrong_password (s : AuthService) (env : Env)
    (email password hash : String)
    (h1 : env.find_password_by_email email = some hash)
    (h2 : env.check_password password hash = false) :
    (s.login env email password).map (fun r => r.1) =
      some (Except.error ServiceError.unauthorized) := by
  simp only [AuthService.login, userRepository_fallback, h1, h2]
  simp

theorem C2_witness :
    (AuthService.new.login testEnv "a@x.com" "wrong").map (fun r => r.1) =
      some (Except.error ServiceError.unauthorized) :=
  C2_login_wrong_password AuthService.new testEnv "a@x.com" "wrong" "H"
    (by decide) (by decide)

/-- C8: when the user store holds no password hash for the email,
login fails with NotFound for every supplied password. -/
theorem C8_login_unknown_email (s : AuthService) (env : Env)
    (email password : String)
    (h1 : env.find_password_by_email email = none) :
    (s.login env email password).map (fun r => r.1) =
      some (Except.error (ServiceError.notFound email)) := by
  simp only [AuthService.login, userRepository_fallback, h1]
  simp

theorem C8_witness :
    (AuthService.new.login testEnv "missing@x.com" "secret").map
        (fun r => r.1) =
      some (Except.error (ServiceError.notFound "missing@x.com")) :=
  C8_login_unknown_email AuthService.new testEnv "missing@x.com" "secret"
    (by decide)

/-- C5: when name, email or password is empty or whitespace-only
after trimming, set_sign_up_token fails with InvalidArgument, leaves
the service state unchanged and records no store access and no email
send attempt. -/
theorem C5_sign_up_validation (s : AuthService) (env : Env)
    (name email password : String) (avatar_url : Option String)
    (h : ((str_trim name).isEmpty || (str_trim email).isEmpty ||
      (str_trim password).isEmpty) = true) :
    s.set_sign_up_token env name email password avatar_url =
      some (Except.error ServiceError.invalidArgument, s, []) := by
  simp only [AuthService.set_sign_up_token, h]
  simp [get_service_error]

theorem C5_witness :
    AuthService.new.set_sign_up_token testEnv "" "a@x.com" "pw" none =
      some (Except.error ServiceError.invalidArgument, AuthService.new, []) :=
  C5_sign_up_validation AuthService.new testEnv "" "a@x.com" "pw" none
    (by decide)

/-- C7: refreshing with a prior session whose user still exists
returns a session with user_id, user_email and user_public_key from
the prior session and user_name and user_avatar_url from the freshly
loaded user. -/
theorem C7_refresh_preserves_identity (s : AuthService) (env : Env)
    (prior : UserSession) (user : User)
    (h : env.find_by_id prior.user_id = some user) :
    (s.refresh_user_session env (some prior)).map (fun r => r.1) =
      some (Except.ok
        { user_id := prior.user_id
          user_email := prior.user_email
          user_name := user.name
          user_public_key := prior.user_public_key
          user_avatar_url := user.avatar_url }) := by
  simp only [AuthService.refresh_user_session, userRepository_fallback, h]
  simp

/-- A prior session of user1 with stale name and avatar. -/
def priorSession1 : UserSession :=
  { user_id := 1, user_email := "a@x.com", user_name := "OldName",
    user_public_key := "PK1", user_avatar_url := some "old.png" }

theorem C7_witness :
    (AuthService.new.refresh_user_session testEnv (some priorSession1)).map
        (fun r => r.1) =
      some (Except.ok
        { user_id := 1
          user_email := "a@x.com"
          user_name := "Alice"
          user_public_key := "PK1"
          user_avatar_url := none }) :=
  C7_refresh_preserves_identity AuthService.new testEnv priorSession1 user1
    (by decide)

/-- A prior session whose user id 7 no longer exists in testEnv. -/
def sess7 : UserSession :=
  { user_id := 7, user_email := "g@x.com", user_name := "Gone",
    user_public_key := "PK7", user_avatar_url := none }

/-- C3 counterexample: with a prior session for user id 7 whose user
record no longer exists, refresh_user_session fails with
NotFound, not Unauthorized, so Unauthorized is not the only error kind
the operation can produce. -/
theorem C3_counterexample :
    (AuthService.new.refresh_user_session testEnv (some sess7)).map
        (fun r => r.1) =
      some (Except.error (ServiceError.notFound "7")) ∧
    ServiceError.notFound "7" ≠ ServiceError.unauthorized := by decide

/-- C3 amended: with no prior session refresh_user_session fails with
Unauthorized, and every error it produces is either Unauthorized or a
NotFound propagated from the user lookup. -/
theorem C3_refresh_error_kinds (s : AuthService) (env : Env)
    (session : Option UserSession) :
    (session = none →
      s.refresh_user_session env session =
        some (Except.error ServiceError.unauthorized, s, [])) ∧
    (∀ e s1 tr,
      s.refresh_user_session env session = some (Except.error e, s1, tr) →
      e = ServiceError.unauthorized ∨ ∃ k, e = ServiceError.notFound k) := by
  constructor
  · rintro rfl
    simp [AuthService.refresh_user_session, get_service_error]
  · intro e s1 tr h
    cases session with
    | none =>
      simp [AuthService.refresh_user_session, get_service_error] at h
      exact Or.inl h.1.symm
    | some prior =>
      rw [AuthService.refresh_user_session, userRepository_fallback] at h
      cases hf : env.find_by_id prior.user_id with
      | none =>
        rw [hf] at h
        simp at h
        exact Or.inr ⟨toString prior.user_id, h.1.symm⟩
      | some u =>
        rw [hf] at h
        simp at h

theorem C3_witness :
    (AuthService.new.refresh_user_session testEnv none =
      some (Except.error ServiceError.unauthorized, AuthService.new, [])) ∧
    (ServiceError.notFound "7" = ServiceError.unauthorized ∨
      ∃ k, ServiceError.notFound "7" = ServiceError.notFound k) :=
  ⟨(C3_refresh_error_kinds AuthService.new testEnv none).1 rfl,
    (C3_refresh_error_kinds AuthService.new testEnv (some sess7)).2
      (ServiceError.notFound "7")
      { AuthService.new with user_repository := some UserRepository.new }
      [Effect.findById 7] (by decide)⟩

theorem char_a_isAlphanum : ('a'.isAlphanum = true) := by decide

theorem sample_alphanumeric_length (f : Nat → Char) (n : Nat) :
    (sample_alphanumeric f n).length = n := by
  simp [sample_alphanumeric, String.length]

theorem sample_alphanumeric_mem (f : Nat → Char) (n : Nat) (c : Char)
    (hc : c ∈ (sample_alphanumeric f n).data) : ∃ i, f i = c := by
  simp only [sample_alphanumeric] at hc
  obtain ⟨i, _, hi⟩ := List.mem_map.mp hc
  exact ⟨i, hi⟩

/-- C6: the generated pin is exactly 8 characters, the generated
password-token id exactly 32, the generated temporary password exactly
512, all drawn from the alphanumeric stream. -/
theorem C6_generated_token_shapes (env : Env)
    (h1 : ∀ i, (env.rand1 i).isAlphanum = true)
    (h2 : ∀ i, (env.rand2 i).isAlphanum = true) :
    ((generated_pin env).length = 8 ∧
      ∀ c ∈ (generated_pin env).data, c.isAlphanum = true) ∧
    ((generated_password_token env).id.length = 32 ∧
      ∀ c ∈ (generated_password_token env).id.data, c.isAlphanum = true) ∧
    ((generated_password_token env).password.length = 512 ∧
      ∀ c ∈ (generated_password_token env).password.data,
        c.isAlphanum = true) := by
  refine ⟨⟨?_, ?_⟩, ⟨?_, ?_⟩, ⟨?_, ?_⟩⟩
  · simp [generated_pin, sample_alphanumeric_length]
  · intro c hc
    obtain ⟨i, hi⟩ := sample_alphanumeric_mem env.rand1 8 c hc
    exact hi ▸ h1 i
  · simp [generated_password_token, sample_alphanumeric_length]
  · intro c hc
    obtain ⟨i, hi⟩ := sample_alphanumeric_mem env.rand1 32 c hc
    exact hi ▸ h1 i
  · simp [generated_password_token, sample_alphanumeric_length]
  · intro c hc
    obtain ⟨i, hi⟩ := sample_alphanumeric_mem env.rand2 512 c hc
    exact hi ▸ h2 i

theorem C6_witness :
    ((generated_pin testEnv).length = 8 ∧
      ∀ c ∈ (generated_pin testEnv).data, c.isAlphanum = true) ∧
    ((generated_password_token testEnv).id.length = 32 ∧
      ∀ c ∈ (generated_password_token testEnv).id.data,
        c.isAlphanum = true) ∧
    ((generated_password_token testEnv).password.length = 512 ∧
      ∀ c ∈ (generated_password_token testEnv).password.data,
        c.isAlphanum = true) :=
  C6_generated_token_shapes testEnv (fun _ => char_a_isAlphanum)
    (fun _ => char_a_isAlphanum)

theorem PasswordTokenRepository_new_user_id (uid : Nat) :
    (PasswordTokenRepository.new uid).user_id = uid := rfl

theorem some_if_true_true {α : Type} (v : α) :
    some_if_true true v = some v := rfl

theorem some_if_true_false {α : Type} (v : α) :
    some_if_true false v = none := rfl

theorem password_token_repo_of_set_user (s : AuthService)
    (r0 : Option UserRepository) :
    ({ s with user_repository := r0 } : AuthService).password_token_repository =
      s.password_token_repository := rfl

/-- The test environment with a constant password-token serializer. -/
def cexEnv4 : Env :=
  { testEnv with serialize_password_token := fun _ => some "tok" }

/-- The service state left behind by one set_password_token call for
user1 on a freshly constructed service. -/
def serviceAfterFirstReset : AuthService :=
  { AuthService.new with
      user_repository := some UserRepository.new
      password_token_repository := some (PasswordTokenRepository.new 1) }

/-- C4 counterexample: a first set_password_token call for user id 1
retains a store scoped to 1; a second call on the same service for
user id 2 saves through the retained store still scoped to 1 and never
saves through a store scoped to 2, so the persisted token is not
scoped by that user's id when a store is retained from an earlier
call. -/
theorem C4_counterexample :
    ((AuthService.new.set_password_token cexEnv4 "a@x.com").map
        (fun r => r.2.1) = some serviceAfterFirstReset) ∧
    ((cexEnv4.find_by_email "b@x.com").map User.id = some 2) ∧
    ((serviceAfterFirstReset.set_password_token cexEnv4 "b@x.com").map
        (fun r => (r.2.2.contains (Effect.savePasswordToken 1 "tok"),
          r.2.2.contains (Effect.savePasswordToken 2 "tok"))) =
      some (true, false)) := by decide

/-- C4 amended: when the service holds no retained password-token
store, set_password_token persists the serialized token through a
store scoped by the found user's id and retains that store; when a
store is retained from an earlier call, the retained store with its
original scope is reused instead. -/
theorem C4_password_token_scope (s : AuthService) (env : Env)
    (email st : String) (user : User)
    (hrepo : s.password_token_repository = none)
    (hfind : env.find_by_email email = some user)
    (hser : env.serialize_password_token (generated_password_token env) =
      some st) :
    ((s.set_password_token env email).map
        (fun r => r.2.2.contains (Effect.savePasswordToken user.id st)) =
      some true) ∧
    ((s.set_password_token env email).map
        (fun r => r.2.1.password_token_repository) =
      some (some (PasswordTokenRepository.new user.id))) := by
  simp only [AuthService.set_password_token, userRepository_fallback, hfind,
    hser, password_token_repo_of_set_user, hrepo, Option.isNone_none,
    some_if_true_true, AuthService.passwordTokenRepository,
    PasswordTokenRepository_new_user_id]
  cases hsave : env.password_save user.id st with
  | error e => simp [hsave]
  | ok b => simp [hsave]

theorem C4_witness :
    ((AuthService.new.set_password_token cexEnv4 "a@x.com").map
        (fun r => r.2.2.contains (Effect.savePasswordToken user1.id "tok")) =
      some true) ∧
    ((AuthService.new.set_password_token cexEnv4 "a@x.com").map
        (fun r => r.2.1.password_token_repository) =
      some (some (PasswordTokenRepository.new user1.id))) :=
  C4_password_token_scope AuthService.new cexEnv4 "a@x.com" "tok" user1
    rfl (by decide) (by decide)

/-- The test environment with constant serializers for both token
kinds. -/
def witEnv9 : Env :=
  { testEnv with
      serialize_sign_up_token := fun _ => some "sut"
      serialize_password_token := fun _ => some "tok" }

/-- C9: the outcome of set_sign_up_token and of set_password_token is
unchanged under any replacement of the email sender, and whenever the
email-sending step is reached the returned outcome is exactly the
token store's success indicator. -/
theorem C9_email_best_effort (s : AuthService) (env : Env)
    (f : String → String → String → Except String Bool)
    (name email password : String) (avatar_url : Option String)
    (email2 st st2 : String) (b b2 : Bool) (user : User)
    (hval : ((str_trim name).isEmpty || (str_trim email).isEmpty ||
      (str_trim password).isEmpty) = false)
    (hser : env.serialize_sign_up_token
        { pin := generated_pin env, name := name, email := email,
          password := env.get_hashed_password password,
          avatar_url := avatar_url } = some st)
    (hsave : env.sign_up_save st = Except.ok b)
    (hfind : env.find_by_email email2 = some user)
    (hser2 : env.serialize_password_token (generated_password_token env) =
      some st2)
    (hsave2 : ∀ uid, env.password_save uid st2 = Except.ok b2) :
    (s.set_sign_up_token { env with send_email := f } name email password
        avatar_url =
      s.set_sign_up_token env name email password avatar_url) ∧
    (s.set_password_token { env with send_email := f } email2 =
      s.set_password_token env email2) ∧
    ((s.set_sign_up_token env name email password avatar_url).map
        (fun r => r.1) = some (Except.ok b)) ∧
    ((s.set_password_token env email2).map (fun r => r.1) =
      some (Except.ok b2)) := by
  refine ⟨rfl, rfl, ?_, ?_⟩
  · simp [AuthService.set_sign_up_token, hval, signUpTokenRepository_fallback,
      hser, hsave]
  · cases hr : s.password_token_repository with
    | none =>
      simp [AuthService.set_password_token, userRepository_fallback, hfind,
        hser2, password_token_repo_of_set_user, hr, some_if_true_true,
        AuthService.passwordTokenRepository,
        PasswordTokenRepository_new_user_id, hsave2 user.id]
    | some r =>
      simp [AuthService.set_password_token, userRepository_fallback, hfind,
        hser2, password_token_repo_of_set_user, hr, some_if_true_false,
        AuthService.passwordTokenRepository, hsave2 r.user_id]

theorem C9_witness :
    (AuthService.new.set_sign_up_token
        { witEnv9 with send_email := fun _ _ _ => Except.error "boom" }
        "Alice" "a@x.com" "secret" none =
      AuthService.new.set_sign_up_token witEnv9
        "Alice" "a@x.com" "secret" none) ∧
    (AuthService.new.set_password_token
        { witEnv9 with send_email := fun _ _ _ => Except.error "boom" }
        "a@x.com" =
      AuthService.new.set_password_token witEnv9 "a@x.com") ∧
    ((AuthService.new.set_sign_up_token witEnv9
        "Alice" "a@x.com" "secret" none).map (fun r => r.1) =
      some (Except.ok true)) ∧
    ((AuthService.new.set_password_token witEnv9 "a@x.com").map
        (fun r => r.1) = some (Except.ok true)) :=
  C9_email_best_effort AuthService.new witEnv9
    (fun _ _ _ => Except.error "boom") "Alice" "a@x.com" "secret" none
    "a@x.com" "sut" "tok" true true user1
    (by decide) rfl rfl (by decide) rfl (fun _ => rfl)

theorem login_no_panic (s : AuthService) (env : Env)
    (email password : String) :
    (s.login env email password).isSome = true := by
  cases hp : env.find_password_by_email email with
  | none => simp [AuthService.login, userRepository_fallback, hp]
  | some hash =>
    cases hc : env.check_password password hash with
    | false => simp [AuthService.login, userRepository_fallback, hp, hc]
    | true =>
      cases hf : env.find_by_email email with
      | none =>
        simp [AuthService.login, userRepository_fallback,
          userRepository_after_set, hp, hc, hf]
      | some user =>
        cases hk : env.find_by_user_id user.id <;>
          simp [AuthService.login, userRepository_fallback,
            userRepository_after_set, userKeyRepository_fallback,
            hp, hc, hf, hk]

theorem refresh_no_panic (s : AuthService) (env : Env)
    (session : Option UserSession) :
    (s.refresh_user_session env session).isSome = true := by
  cases session with
  | none => simp [AuthService.refresh_user_session]
  | some prior =>
    cases hf : env.find_by_id prior.user_id <;>
      simp [AuthService.refresh_user_session, userRepository_fallback, hf]

theorem sign_up_no_panic (s : AuthService) (env : Env)
    (name email password : String) (avatar_url : Option String) :
    (s.set_sign_up_token env name email password avatar_url).isSome =
      true := by
  cases hv : ((str_trim name).isEmpty || (str_trim email).isEmpty ||
      (str_trim password).isEmpty) with
  | true => simp [AuthService.set_sign_up_token, hv]
  | false =>
    cases hs : env.serialize_sign_up_token
        { pin := generated_pin env, name := name, email := email,
          password := env.get_hashed_password password,
          avatar_url := avatar_url } with
    | none => simp [AuthService.set_sign_up_token, hv, hs]
    | some st =>
      cases hb : env.sign_up_save st <;>
        simp [AuthService.set_sign_up_token, hv, hs, hb,
          signUpTokenRepository_fallback]

theorem password_no_panic (s : AuthService) (env : Env) (email : String) :
    (s.set_password_token env email).isSome = true := by
  cases hf : env.find_by_email email with
  | none => simp [AuthService.set_password_token, userRepository_fallback, hf]
  | some user =>
    cases hs : env.serialize_password_token (generated_password_token env) with
    | none =>
      simp [AuthService.set_password_token, userRepository_fallback, hf, hs]
    | some st =>
      cases hr : s.password_token_repository with
      | none =>
        cases hb : env.password_save user.id st <;>
          simp [AuthService.set_password_token, userRepository_fallback, hf,
            hs, password_token_repo_of_set_user, hr, some_if_true_true,
            AuthService.passwordTokenRepository,
            PasswordTokenRepository_new_user_id, hb]
      | some r =>
        cases hb : env.password_save r.user_id st <;>
          simp [AuthService.set_password_token, userRepository_fallback, hf,
            hs, password_token_repo_of_set_user, hr, some_if_true_false,
            AuthService.passwordTokenRepository, hb]

theorem runOp_isSome (env : Env) (s : AuthService) (op : Op) :
    (runOp env s op).isSome = true := by
  cases op <;>
    simp [runOp, login_no_panic, refresh_no_panic, sign_up_no_panic,
      password_no_panic]

/-- C10: running any sequence of public operations from a service
constructed by new never reaches an unwrap of an empty repository
field: every operation installs a fallback repository before its first
access to an empty field, so runOps never panics. -/
theorem C10_no_unwrap_panic (env : Env) (ops : List Op) :
    (runOps env ops AuthService.new).isSome = true := by
  have h : ∀ (l : List Op) (s : AuthService),
      (runOps env l s).isSome = true := by
    intro l
    induction l with
    | nil => intro s; rfl
    | cons op rest ih =>
      intro s
      rw [runOps]
      cases hop : runOp env s op with
      | none =>
        have hs := runOp_isSome env s op
        rw [hop] at hs
        exact absurd hs (by simp)
      | some s1 => exact ih s1
  exact h ops AuthService.new

end Darim
